import Mathlib

/-!
Shallow embedding of the protocol core of the weewx-gw1000 driver: command
framing (catalog, checksum, build, validate, payload extraction), the
field-level byte decoders, the generic live-data traversal, and the sensor
registry that derives battery and signal observations.

The repository ships the driver's unit-test suite
(bin/user/tests/test_gw1000.py) but not the driver module itself, so the
definitions below are modelled from the specification, with the constant
tables and the expected-output fixtures of the test suite taken as the
authority on concrete behaviour.  Rationals are built with mkRat so that
every definition evaluates inside the kernel; mkRat n d is the rational
number n / d.
-/

namespace GW1000

/-- Modelled from the spec: the CommandCatalog (section 6), a fixed map from
command name to the one-byte command code, reproduced from the constant table
the test suite pins with StationTestCase.commands. -/
def commands : List (String × Nat) :=
  [("CMD_WRITE_SSID", 0x11),
   ("CMD_BROADCAST", 0x12),
   ("CMD_READ_ECOWITT", 0x1E),
   ("CMD_WRITE_ECOWITT", 0x1F),
   ("CMD_READ_WUNDERGROUND", 0x20),
   ("CMD_WRITE_WUNDERGROUND", 0x21),
   ("CMD_READ_WOW", 0x22),
   ("CMD_WRITE_WOW", 0x23),
   ("CMD_READ_WEATHERCLOUD", 0x24),
   ("CMD_WRITE_WEATHERCLOUD", 0x25),
   ("CMD_READ_STATION_MAC", 0x26),
   ("CMD_GW1000_LIVEDATA", 0x27),
   ("CMD_GET_SOILHUMIAD", 0x28),
   ("CMD_SET_SOILHUMIAD", 0x29),
   ("CMD_READ_CUSTOMIZED", 0x2A),
   ("CMD_WRITE_CUSTOMIZED", 0x2B),
   ("CMD_GET_MulCH_OFFSET", 0x2C),
   ("CMD_SET_MulCH_OFFSET", 0x2D),
   ("CMD_GET_PM25_OFFSET", 0x2E),
   ("CMD_SET_PM25_OFFSET", 0x2F),
   ("CMD_READ_SSSS", 0x30),
   ("CMD_WRITE_SSSS", 0x31),
   ("CMD_READ_RAINDATA", 0x34),
   ("CMD_WRITE_RAINDATA", 0x35),
   ("CMD_READ_GAIN", 0x36),
   ("CMD_WRITE_GAIN", 0x37),
   ("CMD_READ_CALIBRATION", 0x38),
   ("CMD_WRITE_CALIBRATION", 0x39),
   ("CMD_READ_SENSOR_ID", 0x3A),
   ("CMD_WRITE_SENSOR_ID", 0x3B),
   ("CMD_READ_SENSOR_ID_NEW", 0x3C),
   ("CMD_WRITE_REBOOT", 0x40),
   ("CMD_WRITE_RESET", 0x41),
   ("CMD_WRITE_UPDATE", 0x43),
   ("CMD_READ_FIRMWARE_VERSION", 0x50),
   ("CMD_READ_USRPATH", 0x51),
   ("CMD_WRITE_USRPATH", 0x52),
   ("CMD_GET_CO2_OFFSET", 0x53),
   ("CMD_SET_CO2_OFFSET", 0x54)]

/-- Modelled from the spec: the fixed two-byte frame header (section 3). -/
def header : List Nat := [0xFF, 0xFF]

/-- Modelled from the spec: calc_checksum (section 4.2), the sum of all input
bytes modulo 256.  The two leading 0xFF header bytes are never part of the
input handed to it. -/
def calc_checksum (data : List Nat) : Nat := data.sum % 256

/-- Modelled from the spec: build (section 4.2).  Looks the command name up in
the catalog and constructs 0xFF 0xFF code length payload checksum, where the
one-byte length field counts the command byte, the length byte itself, the
payload and the checksum byte, and the checksum is calc_checksum over
code, length and payload.  An unknown command name is the UnknownCommand
failure, and a payload too long for the one-byte length field cannot be
framed; both are rendered as none. -/
def build_cmd_packet (cmd : String) (payload : List Nat) : Option (List Nat) :=
  match commands.lookup cmd with
  | none => none
  | some code =>
    if payload.length + 3 ≤ 255 then
      some (0xFF :: 0xFF :: code :: (payload.length + 3) ::
        (payload ++ [calc_checksum (code :: (payload.length + 3) :: payload)]))
    else none

/-- Error taxonomy of response validation (section 7): the response's
command-code byte does not match the command sent, or the trailing checksum
byte does not match the computed checksum. -/
inductive ApiError where
  | invalidApiResponse
  | invalidChecksum
deriving DecidableEq

/-- Modelled from the spec: validate / check_response (section 4.2).  Checks
the command-code byte (position 2) first and raises InvalidApiResponse on a
mismatch; otherwise compares the trailing byte against calc_checksum over the
bytes between the header and the checksum (both exclusive) and raises
InvalidChecksum on a mismatch.  A result of none means the response passed
validation without an exception. -/
def check_response (response : List Nat) (cmd_code : Nat) : Option ApiError :=
  if response.get? 2 = some cmd_code then
    if response.getLast? = some (calc_checksum ((response.drop 2).dropLast)) then
      none
    else some ApiError.invalidChecksum
  else some ApiError.invalidApiResponse

/-- Modelled from the spec: extract_payload / get_payload (section 4.2).
Strips the two header bytes, the command byte and the size field (whose width
in bytes is supplied by the caller, one byte for most commands and two for a
fixed set of them), and the trailing checksum byte. -/
def get_payload (response : List Nat) (size_bytes : Nat) : List Nat :=
  (response.drop (3 + size_bytes)).dropLast

/-- Signed interpretation of a big-endian 16-bit value, as produced by
unpacking with a signed-short format. -/
def toSigned16 (v : Nat) : Int :=
  if v < 0x8000 then (v : Int) else (v : Int) - 0x10000

/-- Modelled from the spec: decode_temp (section 4.1), signed big-endian
16-bit integer divided by ten; none on any input that is not exactly two
bytes. -/
def decode_temp : List Nat → Option ℚ
  | [b0, b1] => some (mkRat (toSigned16 (b0 * 256 + b1)) 10)
  | _ => none

/-- Modelled from the spec: decode_humid (section 4.1), the raw unsigned
byte; none on any input that is not exactly one byte. -/
def decode_humid : List Nat → Option ℚ
  | [b0] => some (mkRat b0 1)
  | _ => none

/-- Modelled from the spec: decode_press (section 4.1), unsigned big-endian
16-bit divided by ten. -/
def decode_press : List Nat → Option ℚ
  | [b0, b1] => some (mkRat (b0 * 256 + b1) 10)
  | _ => none

/-- Modelled from the spec: decode_dir (section 4.1), unsigned big-endian
16-bit, no scaling. -/
def decode_dir : List Nat → Option ℚ
  | [b0, b1] => some (mkRat (b0 * 256 + b1) 1)
  | _ => none

/-- Modelled from the spec: decode_speed (section 4.1), unsigned big-endian
16-bit divided by ten. -/
def decode_speed : List Nat → Option ℚ
  | [b0, b1] => some (mkRat (b0 * 256 + b1) 10)
  | _ => none

/-- Modelled from the spec: decode_rain (section 4.1), unsigned big-endian
16-bit divided by ten. -/
def decode_rain : List Nat → Option ℚ
  | [b0, b1] => some (mkRat (b0 * 256 + b1) 10)
  | _ => none

/-- Modelled from the spec: decode_rainrate (section 4.1), unsigned
big-endian 16-bit divided by ten. -/
def decode_rainrate : List Nat → Option ℚ
  | [b0, b1] => some (mkRat (b0 * 256 + b1) 10)
  | _ => none

/-- Modelled from the spec: decode_big_rain (section 4.1), unsigned
big-endian 32-bit divided by ten. -/
def decode_big_rain : List Nat → Option ℚ
  | [b0, b1, b2, b3] => some (mkRat (((b0 * 256 + b1) * 256 + b2) * 256 + b3) 10)
  | _ => none

/-- Modelled from the spec: decode_light (section 4.1), unsigned big-endian
32-bit divided by ten. -/
def decode_light : List Nat → Option ℚ
  | [b0, b1, b2, b3] => some (mkRat (((b0 * 256 + b1) * 256 + b2) * 256 + b3) 10)
  | _ => none

/-- Modelled from the spec: decode_uv (section 4.1), unsigned big-endian
16-bit divided by ten. -/
def decode_uv : List Nat → Option ℚ
  | [b0, b1] => some (mkRat (b0 * 256 + b1) 10)
  | _ => none

/-- Modelled from the spec: decode_uvi (section 4.1), the raw unsigned
byte. -/
def decode_uvi : List Nat → Option ℚ
  | [b0] => some (mkRat b0 1)
  | _ => none

/-- Modelled from the spec: decode_datetime (section 4.1), six raw unsigned
bytes returned as an ordered tuple, not converted to an epoch. -/
def decode_datetime : List Nat → Option (List Nat)
  | [b0, b1, b2, b3, b4, b5] => some [b0, b1, b2, b3, b4, b5]
  | _ => none

/-- Modelled from the spec: decode_pm25 (section 4.1), unsigned big-endian
16-bit divided by ten. -/
def decode_pm25 : List Nat → Option ℚ
  | [b0, b1] => some (mkRat (b0 * 256 + b1) 10)
  | _ => none

/-- Modelled from the spec: decode_moist (section 4.1), the raw unsigned
byte. -/
def decode_moist : List Nat → Option ℚ
  | [b0] => some (mkRat b0 1)
  | _ => none

/-- Modelled from the spec: decode_leak (section 4.1), the raw unsigned
byte. -/
def decode_leak : List Nat → Option ℚ
  | [b0] => some (mkRat b0 1)
  | _ => none

/-- Modelled from the spec: decode_distance (section 4.1), the raw unsigned
byte in kilometres; the all-bits-set byte is the lightning-distance absent
marker (sections 4.4 and 9) and decodes to none. -/
def decode_distance : List Nat → Option ℚ
  | [b0] => if b0 = 0xFF then none else some (mkRat b0 1)
  | _ => none

/-- Modelled from the spec: decode_utc (section 4.1), unsigned big-endian
32-bit taken directly as a Unix epoch second count; the all-bits-set value is
the lightning-time absent marker (sections 4.4 and 9) and decodes to none. -/
def decode_utc : List Nat → Option ℚ
  | [b0, b1, b2, b3] =>
      if ((b0 * 256 + b1) * 256 + b2) * 256 + b3 = 0xFFFFFFFF then none
      else some (mkRat (((b0 * 256 + b1) * 256 + b2) * 256 + b3) 1)
  | _ => none

/-- Modelled from the spec: decode_count (section 4.1), unsigned big-endian
32-bit, no scaling. -/
def decode_count : List Nat → Option ℚ
  | [b0, b1, b2, b3] => some (mkRat (((b0 * 256 + b1) * 256 + b2) * 256 + b3) 1)
  | _ => none

/-- Modelled from the spec: decode_batt (section 4.1), the legacy 16-byte
battery field that always decodes to none and is retained for frame-length
accounting only. -/
def decode_batt : List Nat → Option ℚ := fun _ => none

/-- Decoded observation values: a numeric reading, the absent marker a
decoder returned none for, or the raw six-byte tuple of the datetime
field. -/
inductive ObsValue where
  | absent
  | num (v : ℚ)
  | tup (bs : List Nat)
deriving DecidableEq

/-- Modelled from the spec: decode_wh34 (section 4.1); the first two bytes
are a signed big-endian 16-bit temperature divided by ten, the third byte is
the raw battery voltage which is not decoded here, and a length mismatch
yields the empty mapping. -/
def decode_wh34 (data : List Nat) (field : String) : List (String × ObsValue) :=
  match data with
  | [b0, b1, _] => [(field, ObsValue.num (mkRat (toSigned16 (b0 * 256 + b1)) 10))]
  | _ => []

/-- Modelled from the spec: decode_wh45 (section 4.1); sequentially decodes
temperature (two bytes, signed, divided by ten), humidity (one raw byte),
pm10 and its 24h average, pm2.5 and its 24h average (two bytes each, divided
by ten), and co2 and its 24h average (two raw big-endian 16-bit values) into
the eight field names in order; the final byte is the raw battery value,
which is not decoded here.  A length mismatch yields the empty mapping. -/
def decode_wh45 (data : List Nat) (fields : List String) : List (String × ObsValue) :=
  match data, fields with
  | [t0, t1, h, pa0, pa1, pb0, pb1, pc0, pc1, pd0, pd1, c0, c1, d0, d1, _],
    [ft, fh, fp10, fp10a, fp25, fp25a, fc, fca] =>
      [(ft, ObsValue.num (mkRat (toSigned16 (t0 * 256 + t1)) 10)),
       (fh, ObsValue.num (mkRat h 1)),
       (fp10, ObsValue.num (mkRat (pa0 * 256 + pa1) 10)),
       (fp10a, ObsValue.num (mkRat (pb0 * 256 + pb1) 10)),
       (fp25, ObsValue.num (mkRat (pc0 * 256 + pc1) 10)),
       (fp25a, ObsValue.num (mkRat (pd0 * 256 + pd1) 10)),
       (fc, ObsValue.num (mkRat (c0 * 256 + c1) 1)),
       (fca, ObsValue.num (mkRat (d0 * 256 + d1) 1))]
  | _, _ => []

/-- Modelled from the spec: decode_wet, the leaf-wetness raw unsigned byte
(section 3 lists leaf wetness among the field groups; the decoder follows
the one-raw-byte pattern the table assigns it). -/
def decode_wet : List Nat → Option ℚ
  | [b0] => some (mkRat b0 1)
  | _ => none

/-- Closed enumeration of the decoder identifiers stored in the field table,
as section 9 directs for the originally name-dispatched decoders. -/
inductive DecodeKind where
  | temp
  | humid
  | press
  | wdir
  | speed
  | rain
  | rainrate
  | bigRain
  | light
  | uv
  | uvi
  | dateTuple
  | pm25
  | moist
  | leak
  | distance
  | utc
  | count
  | batt
  | wh34
  | wh45
  | wet
  | placeholder
deriving DecidableEq

/-- Modelled from the spec: the FieldDecoderTable (section 3), keyed by the
one-byte field code, giving the decoder, the fixed byte count the field
consumes, and the output name or names.  Reproduced from the constant table
the test suite pins with SensorsDataTestCase.response_struct.  The source
stores the 0x71 placeholder entry with no decoder and no byte count; it is
rendered here as the placeholder kind consuming no payload bytes. -/
def response_struct (code : Nat) : Option (DecodeKind × Nat × List String) :=
  match code with
  | 0x01 => some (DecodeKind.temp, 2, ["intemp"])
  | 0x02 => some (DecodeKind.temp, 2, ["outtemp"])
  | 0x03 => some (DecodeKind.temp, 2, ["dewpoint"])
  | 0x04 => some (DecodeKind.temp, 2, ["windchill"])
  | 0x05 => some (DecodeKind.temp, 2, ["heatindex"])
  | 0x06 => some (DecodeKind.humid, 1, ["inhumid"])
  | 0x07 => some (DecodeKind.humid, 1, ["outhumid"])
  | 0x08 => some (DecodeKind.press, 2, ["absbarometer"])
  | 0x09 => some (DecodeKind.press, 2, ["relbarometer"])
  | 0x0A => some (DecodeKind.wdir, 2, ["winddir"])
  | 0x0B => some (DecodeKind.speed, 2, ["windspeed"])
  | 0x0C => some (DecodeKind.speed, 2, ["gustspeed"])
  | 0x0D => some (DecodeKind.rain, 2, ["rainevent"])
  | 0x0E => some (DecodeKind.rainrate, 2, ["rainrate"])
  | 0x0F => some (DecodeKind.rain, 2, ["rainhour"])
  | 0x10 => some (DecodeKind.rain, 2, ["rainday"])
  | 0x11 => some (DecodeKind.rain, 2, ["rainweek"])
  | 0x12 => some (DecodeKind.bigRain, 4, ["rainmonth"])
  | 0x13 => some (DecodeKind.bigRain, 4, ["rainyear"])
  | 0x14 => some (DecodeKind.bigRain, 4, ["raintotals"])
  | 0x15 => some (DecodeKind.light, 4, ["light"])
  | 0x16 => some (DecodeKind.uv, 2, ["uv"])
  | 0x17 => some (DecodeKind.uvi, 1, ["uvi"])
  | 0x18 => some (DecodeKind.dateTuple, 6, ["datetime"])
  | 0x19 => some (DecodeKind.speed, 2, ["daymaxwind"])
  | 0x1A => some (DecodeKind.temp, 2, ["temp1"])
  | 0x1B => some (DecodeKind.temp, 2, ["temp2"])
  | 0x1C => some (DecodeKind.temp, 2, ["temp3"])
  | 0x1D => some (DecodeKind.temp, 2, ["temp4"])
  | 0x1E => some (DecodeKind.temp, 2, ["temp5"])
  | 0x1F => some (DecodeKind.temp, 2, ["temp6"])
  | 0x20 => some (DecodeKind.temp, 2, ["temp7"])
  | 0x21 => some (DecodeKind.temp, 2, ["temp8"])
  | 0x22 => some (DecodeKind.humid, 1, ["humid1"])
  | 0x23 => some (DecodeKind.humid, 1, ["humid2"])
  | 0x24 => some (DecodeKind.humid, 1, ["humid3"])
  | 0x25 => some (DecodeKind.humid, 1, ["humid4"])
  | 0x26 => some (DecodeKind.humid, 1, ["humid5"])
  | 0x27 => some (DecodeKind.humid, 1, ["humid6"])
  | 0x28 => some (DecodeKind.humid, 1, ["humid7"])
  | 0x29 => some (DecodeKind.humid, 1, ["humid8"])
  | 0x2A => some (DecodeKind.pm25, 2, ["pm251"])
  | 0x2B => some (DecodeKind.temp, 2, ["soiltemp1"])
  | 0x2C => some (DecodeKind.moist, 1, ["soilmoist1"])
  | 0x2D => some (DecodeKind.temp, 2, ["soiltemp2"])
  | 0x2E => some (DecodeKind.moist, 1, ["soilmoist2"])
  | 0x2F => some (DecodeKind.temp, 2, ["soiltemp3"])
  | 0x30 => some (DecodeKind.moist, 1, ["soilmoist3"])
  | 0x31 => some (DecodeKind.temp, 2, ["soiltemp4"])
  | 0x32 => some (DecodeKind.moist, 1, ["soilmoist4"])
  | 0x33 => some (DecodeKind.temp, 2, ["soiltemp5"])
  | 0x34 => some (DecodeKind.moist, 1, ["soilmoist5"])
  | 0x35 => some (DecodeKind.temp, 2, ["soiltemp6"])
  | 0x36 => some (DecodeKind.moist, 1, ["soilmoist6"])
  | 0x37 => some (DecodeKind.temp, 2, ["soiltemp7"])
  | 0x38 => some (DecodeKind.moist, 1, ["soilmoist7"])
  | 0x39 => some (DecodeKind.temp, 2, ["soiltemp8"])
  | 0x3A => some (DecodeKind.moist, 1, ["soilmoist8"])
  | 0x3B => some (DecodeKind.temp, 2, ["soiltemp9"])
  | 0x3C => some (DecodeKind.moist, 1, ["soilmoist9"])
  | 0x3D => some (DecodeKind.temp, 2, ["soiltemp10"])
  | 0x3E => some (DecodeKind.moist, 1, ["soilmoist10"])
  | 0x3F => some (DecodeKind.temp, 2, ["soiltemp11"])
  | 0x40 => some (DecodeKind.moist, 1, ["soilmoist11"])
  | 0x41 => some (DecodeKind.temp, 2, ["soiltemp12"])
  | 0x42 => some (DecodeKind.moist, 1, ["soilmoist12"])
  | 0x43 => some (DecodeKind.temp, 2, ["soiltemp13"])
  | 0x44 => some (DecodeKind.moist, 1, ["soilmoist13"])
  | 0x45 => some (DecodeKind.temp, 2, ["soiltemp14"])
  | 0x46 => some (DecodeKind.moist, 1, ["soilmoist14"])
  | 0x47 => some (DecodeKind.temp, 2, ["soiltemp15"])
  | 0x48 => some (DecodeKind.moist, 1, ["soilmoist15"])
  | 0x49 => some (DecodeKind.temp, 2, ["soiltemp16"])
  | 0x4A => some (DecodeKind.moist, 1, ["soilmoist16"])
  | 0x4C => some (DecodeKind.batt, 16, ["lowbatt"])
  | 0x4D => some (DecodeKind.pm25, 2, ["pm251_24h_avg"])
  | 0x4E => some (DecodeKind.pm25, 2, ["pm252_24h_avg"])
  | 0x4F => some (DecodeKind.pm25, 2, ["pm253_24h_avg"])
  | 0x50 => some (DecodeKind.pm25, 2, ["pm254_24h_avg"])
  | 0x51 => some (DecodeKind.pm25, 2, ["pm252"])
  | 0x52 => some (DecodeKind.pm25, 2, ["pm253"])
  | 0x53 => some (DecodeKind.pm25, 2, ["pm254"])
  | 0x58 => some (DecodeKind.leak, 1, ["leak1"])
  | 0x59 => some (DecodeKind.leak, 1, ["leak2"])
  | 0x5A => some (DecodeKind.leak, 1, ["leak3"])
  | 0x5B => some (DecodeKind.leak, 1, ["leak4"])
  | 0x60 => some (DecodeKind.distance, 1, ["lightningdist"])
  | 0x61 => some (DecodeKind.utc, 4, ["lightningdettime"])
  | 0x62 => some (DecodeKind.count, 4, ["lightningcount"])
  | 0x63 => some (DecodeKind.wh34, 3, ["temp9"])
  | 0x64 => some (DecodeKind.wh34, 3, ["temp10"])
  | 0x65 => some (DecodeKind.wh34, 3, ["temp11"])
  | 0x66 => some (DecodeKind.wh34, 3, ["temp12"])
  | 0x67 => some (DecodeKind.wh34, 3, ["temp13"])
  | 0x68 => some (DecodeKind.wh34, 3, ["temp14"])
  | 0x69 => some (DecodeKind.wh34, 3, ["temp15"])
  | 0x6A => some (DecodeKind.wh34, 3, ["temp16"])
  | 0x70 => some (DecodeKind.wh45, 16,
      ["temp17", "humid17", "pm10", "pm10_24h_avg", "pm255", "pm255_24h_avg",
       "co2", "co2_24h_avg"])
  | 0x71 => some (DecodeKind.placeholder, 0, [])
  | 0x72 => some (DecodeKind.wet, 1, ["leafwet1"])
  | 0x73 => some (DecodeKind.wet, 1, ["leafwet2"])
  | 0x74 => some (DecodeKind.wet, 1, ["leafwet3"])
  | 0x75 => some (DecodeKind.wet, 1, ["leafwet4"])
  | 0x76 => some (DecodeKind.wet, 1, ["leafwet5"])
  | 0x77 => some (DecodeKind.wet, 1, ["leafwet6"])
  | 0x78 => some (DecodeKind.wet, 1, ["leafwet7"])
  | 0x79 => some (DecodeKind.wet, 1, ["leafwet8"])
  | _ => none

/-- Wraps a scalar decoder result: a decoded number becomes a numeric
observation, a decoder that returned none becomes the absent marker (the
silent-partial-result policy of section 7). -/
def toObs : Option ℚ → ObsValue
  | some v => ObsValue.num v
  | none => ObsValue.absent

/-- Modelled from the spec: applies one field's decoder to the bytes the
field consumed (sections 4.1 and 4.4).  The legacy battery field and the
placeholder codes consume their bytes but contribute no observation; the
composite WH34 and WH45 decoders emit their own named outputs. -/
def apply_decoder (kind : DecodeKind) (chunk : List Nat) (names : List String) :
    List (String × ObsValue) :=
  match kind, names with
  | DecodeKind.batt, _ => []
  | DecodeKind.placeholder, _ => []
  | DecodeKind.wh34, [n] => decode_wh34 chunk n
  | DecodeKind.wh45, ns => decode_wh45 chunk ns
  | DecodeKind.dateTuple, [n] =>
      match decode_datetime chunk with
      | some t => [(n, ObsValue.tup t)]
      | none => [(n, ObsValue.absent)]
  | DecodeKind.temp, [n] => [(n, toObs (decode_temp chunk))]
  | DecodeKind.humid, [n] => [(n, toObs (decode_humid chunk))]
  | DecodeKind.press, [n] => [(n, toObs (decode_press chunk))]
  | DecodeKind.wdir, [n] => [(n, toObs (decode_dir chunk))]
  | DecodeKind.speed, [n] => [(n, toObs (decode_speed chunk))]
  | DecodeKind.rain, [n] => [(n, toObs (decode_rain chunk))]
  | DecodeKind.rainrate, [n] => [(n, toObs (decode_rainrate chunk))]
  | DecodeKind.bigRain, [n] => [(n, toObs (decode_big_rain chunk))]
  | DecodeKind.light, [n] => [(n, toObs (decode_light chunk))]
  | DecodeKind.uv, [n] => [(n, toObs (decode_uv chunk))]
  | DecodeKind.uvi, [n] => [(n, toObs (decode_uvi chunk))]
  | DecodeKind.pm25, [n] => [(n, toObs (decode_pm25 chunk))]
  | DecodeKind.moist, [n] => [(n, toObs (decode_moist chunk))]
  | DecodeKind.leak, [n] => [(n, toObs (decode_leak chunk))]
  | DecodeKind.distance, [n] => [(n, toObs (decode_distance chunk))]
  | DecodeKind.utc, [n] => [(n, toObs (decode_utc chunk))]
  | DecodeKind.count, [n] => [(n, toObs (decode_count chunk))]
  | DecodeKind.wet, [n] => [(n, toObs (decode_wet chunk))]
  | _, _ => []

/-- Modelled from the spec: the LiveDataParser traversal (section 4.4) as a
fuel-indexed loop.  The cursor reads a one-byte field code, fails on a code
the table does not know (MalformedPayload: widths are not self-describing so
the payload cannot be resynchronised), fails on a trailing partial field, and
otherwise decodes the field's fixed byte count and continues.  The fuel only
bounds the iteration count; parse_fields supplies the payload length, which
always suffices because every step consumes at least the code byte. -/
def parse_fields_aux : Nat → List Nat → Option (List (String × ObsValue))
  | _, [] => some []
  | 0, _ :: _ => none
  | fuel + 1, code :: rest =>
      match response_struct code with
      | none => none
      | some (kind, size, names) =>
          if size ≤ rest.length then
            match parse_fields_aux fuel (rest.drop size) with
            | none => none
            | some obs => some (apply_decoder kind (rest.take size) names ++ obs)
          else none

/-- Modelled from the spec: the LiveDataParser traversal over a whole
payload (section 4.4). -/
def parse_fields (payload : List Nat) : Option (List (String × ObsValue)) :=
  parse_fields_aux payload.length payload

/-- Modelled from the spec: the decode entry point for a command response
(section 6 inbound boundary).  For the live-data command the payload sits
behind a two-byte size field; the traversal decodes it, and the map is
stamped with a datetime observation from the caller's clock (supplied here
explicitly as the timestamp argument, since the current time is an input
external to the parser) when the payload itself carried no datetime field,
as the repository's live-data fixture records.  Command responses whose
parsers the verified properties do not touch are rendered as none. -/
def parse (cmd : String) (raw_data : List Nat) (timestamp : Nat) :
    Option (List (String × ObsValue)) :=
  if cmd = "CMD_GW1000_LIVEDATA" then
    match parse_fields (get_payload raw_data 2) with
    | none => none
    | some obs =>
        if obs.any (fun p => p.1 = "datetime") then some obs
        else some (obs ++ [("datetime", ObsValue.num (mkRat timestamp 1))])
  else none

/-- Battery-interpretation kinds of the sensor table (section 3
SensorRecord): binary low-flag, integer level, or scaled voltage. -/
inductive BattKind where
  | binary
  | level
  | volt
deriving DecidableEq

/-- Modelled from the spec: the fixed sensor table (section 3 SensorRecord),
keyed by the one-byte sensor address, giving the short name and the
battery-interpretation kind.  Reproduced from the constant table the test
suite pins with SensorsStateTestCase.sensor_ids. -/
def sensor_ids : List (Nat × String × BattKind) :=
  [(0x00, ("wh65", BattKind.binary)),
   (0x01, ("wh68", BattKind.volt)),
   (0x02, ("ws80", BattKind.volt)),
   (0x03, ("wh40", BattKind.binary)),
   (0x04, ("wh25", BattKind.binary)),
   (0x05, ("wh26", BattKind.binary)),
   (0x06, ("wh31_ch1", BattKind.binary)),
   (0x07, ("wh31_ch2", BattKind.binary)),
   (0x08, ("wh31_ch3", BattKind.binary)),
   (0x09, ("wh31_ch4", BattKind.binary)),
   (0x0A, ("wh31_ch5", BattKind.binary)),
   (0x0B, ("wh31_ch6", BattKind.binary)),
   (0x0C, ("wh31_ch7", BattKind.binary)),
   (0x0D, ("wh31_ch8", BattKind.binary)),
   (0x0E, ("wh51_ch1", BattKind.binary)),
   (0x0F, ("wh51_ch2", BattKind.binary)),
   (0x10, ("wh51_ch3", BattKind.binary)),
   (0x11, ("wh51_ch4", BattKind.binary)),
   (0x12, ("wh51_ch5", BattKind.binary)),
   (0x13, ("wh51_ch6", BattKind.binary)),
   (0x14, ("wh51_ch7", BattKind.binary)),
   (0x15, ("wh51_ch8", BattKind.binary)),
   (0x16, ("wh41_ch1", BattKind.level)),
   (0x17, ("wh41_ch2", BattKind.level)),
   (0x18, ("wh41_ch3", BattKind.level)),
   (0x19, ("wh41_ch4", BattKind.level)),
   (0x1A, ("wh57", BattKind.level)),
   (0x1B, ("wh55_ch1", BattKind.level)),
   (0x1C, ("wh55_ch2", BattKind.level)),
   (0x1D, ("wh55_ch3", BattKind.level)),
   (0x1E, ("wh55_ch4", BattKind.level)),
   (0x1F, ("wh34_ch1", BattKind.volt)),
   (0x20, ("wh34_ch2", BattKind.volt)),
   (0x21, ("wh34_ch3", BattKind.volt)),
   (0x22, ("wh34_ch4", BattKind.volt)),
   (0x23, ("wh34_ch5", BattKind.volt)),
   (0x24, ("wh34_ch6", BattKind.volt)),
   (0x25, ("wh34_ch7", BattKind.volt)),
   (0x26, ("wh34_ch8", BattKind.volt)),
   (0x27, ("wh45", BattKind.level)),
   (0x28, ("wh35_ch1", BattKind.volt)),
   (0x29, ("wh35_ch2", BattKind.volt)),
   (0x2A, ("wh35_ch3", BattKind.volt)),
   (0x2B, ("wh35_ch4", BattKind.volt)),
   (0x2C, ("wh35_ch5", BattKind.volt)),
   (0x2D, ("wh35_ch6", BattKind.volt)),
   (0x2E, ("wh35_ch7", BattKind.volt)),
   (0x2F, ("wh35_ch8", BattKind.volt))]

/-- Modelled from the spec: the not-registered sentinel device ids
(section 3 SensorState), the four-byte values fffffffe and ffffffff. -/
def not_registered : List Nat := [0xFFFFFFFE, 0xFFFFFFFF]

/-- Modelled from the repository's test fixtures: the binary battery decode
keeps only the least-significant bit of the raw byte (bit 0 is the low-flag;
the remaining bits are not guaranteed).  The sensor-ID fixture the test
suite pins (SensorsStateTestCase.parse_sensor_id_data) requires raw 0x0F to
decode to 1 for a binary-battery sensor, which the spec's description
"1 if raw equals 255 else 0" cannot reproduce; the fixture takes
precedence. -/
def batt_binary (batt : Nat) : Nat := batt &&& 1

/-- Modelled from the spec: the integer battery level is the raw value
itself (section 4.5). -/
def batt_int (batt : Nat) : Nat := batt

/-- Modelled from the spec: the voltage battery decode is the raw value
times 0.02 volts (section 4.5); the value is an exact multiple of one
hundredth, so rounding to two decimal places leaves it unchanged. -/
def batt_volt (batt : Nat) : ℚ := mkRat (batt * 2) 100

/-- Per-slot sensor registration state parsed from one seven-byte record of
the sensor-ID payload (section 3 SensorState): address, four-byte device id,
decoded battery (absent when unavailable) and signal level. -/
structure SensorState where
  address : Nat
  devId : Nat
  battery : Option ℚ
  signal : Nat
deriving DecidableEq

/-- Big-endian assembly of the four device-id bytes. -/
def devIdOf (i1 i2 i3 i4 : Nat) : Nat :=
  ((i1 * 256 + i2) * 256 + i3) * 256 + i4

/-- Battery interpretation for one sensor address (section 4.5): the
registered battery-interpretation kind when the address is in the fixed
table, the raw value otherwise (unknown addresses are still recorded with
raw values). -/
def battFor (address raw : Nat) : ℚ :=
  match sensor_ids.lookup address with
  | some (_, BattKind.binary) => mkRat (batt_binary raw) 1
  | some (_, BattKind.level) => mkRat (batt_int raw) 1
  | some (_, BattKind.volt) => batt_volt raw
  | none => mkRat raw 1

/-- Modelled from the spec: parsing of one seven-byte sensor-ID record
(section 4.5).  A device id in the not-registered sentinel set reports
battery absent and signal 0 regardless of the transmitted bytes.  A
transmitted signal byte of zero likewise reports battery absent and signal 0
even for a registered device id: the spec's section 4.5 omits this rule, but
the repository's fixture (address 0x10, id 0000cd04, battery byte 0x1F,
signal byte 0x00 expected to parse to battery None, signal 0) pins it.
Otherwise the battery byte is decoded per the address's registered kind. -/
def mkSensorState (address i1 i2 i3 i4 battRaw sigRaw : Nat) : SensorState :=
  if devIdOf i1 i2 i3 i4 ∈ not_registered then
    ⟨address, devIdOf i1 i2 i3 i4, none, 0⟩
  else if sigRaw = 0 then
    ⟨address, devIdOf i1 i2 i3 i4, none, 0⟩
  else
    ⟨address, devIdOf i1 i2 i3 i4, some (battFor address battRaw), sigRaw⟩

/-- Modelled from the spec: parse_sensor_id_data (section 4.5), the
repeating seven-byte records of the sensor-ID payload: sensor address, four
device-id bytes, battery byte, signal byte. -/
def parse_sensor_id_data : List Nat → List SensorState
  | a :: i1 :: i2 :: i3 :: i4 :: b :: s :: rest =>
      mkSensorState a i1 i2 i3 i4 b s :: parse_sensor_id_data rest
  | _ => []

/-- Named battery and signal observations for one parsed sensor slot
(section 4.5): a slot whose address is outside the fixed table produces no
named observation, and a not-registered (sentinel) slot is absent from the
output. -/
def sensor_obs (s : SensorState) : List (String × Option ℚ) :=
  match sensor_ids.lookup s.address with
  | none => []
  | some (name, _) =>
      if s.devId ∈ not_registered then []
      else [(name ++ "_batt", s.battery), (name ++ "_sig", some (mkRat s.signal 1))]

/-- Modelled from the spec: get_sensor_state_packet (section 4.5), composing
parse_sensor_id_data over the whole sensor-ID response (whose payload sits
behind a two-byte size field) and emitting one batt and one sig observation
per registered sensor address found. -/
def get_sensor_state_packet (response : List Nat) : List (String × Option ℚ) :=
  ((parse_sensor_id_data (get_payload response 2)).map sensor_obs).flatten

/-- Live-data response fixture of the test suite
(SensorsDataTestCase.response_data), quoted by the spec's section 8
end-to-end property. -/
def live_data_frame : List Nat :=
  [0xFF, 0xFF, 0x27, 0x00, 0x40,
   0x01, 0x01, 0x40,
   0x06, 0x26,
   0x08, 0x27, 0xD2,
   0x09, 0x27, 0xD2,
   0x2A, 0x00, 0x5A,
   0x4D, 0x00, 0x65,
   0x2C, 0x27,
   0x2E, 0x14,
   0x1A, 0x00, 0xED,
   0x22, 0x3A,
   0x1B, 0x01, 0x0B,
   0x23, 0x3A,
   0x4C, 0x06, 0x00, 0x00, 0x00, 0x05, 0xFF, 0xFF, 0x00, 0xF6, 0xFF, 0xFF,
   0xFF, 0xFF, 0xFF, 0xFF, 0xFF,
   0x62, 0x00, 0x00, 0x00, 0x00,
   0x61, 0xFF, 0xFF, 0xFF, 0xFF,
   0x60, 0xFF,
   0xEC]

/-- Expected decode of the live-data fixture, in traversal order, with the
datetime stamp 1599021263 the fixture records appended last. -/
def live_data_expected : List (String × ObsValue) :=
  [("intemp", ObsValue.num (mkRat 320 10)),
   ("inhumid", ObsValue.num (mkRat 38 1)),
   ("absbarometer", ObsValue.num (mkRat 10194 10)),
   ("relbarometer", ObsValue.num (mkRat 10194 10)),
   ("pm251", ObsValue.num (mkRat 90 10)),
   ("pm251_24h_avg", ObsValue.num (mkRat 101 10)),
   ("soilmoist1", ObsValue.num (mkRat 39 1)),
   ("soilmoist2", ObsValue.num (mkRat 20 1)),
   ("temp1", ObsValue.num (mkRat 237 10)),
   ("humid1", ObsValue.num (mkRat 58 1)),
   ("temp2", ObsValue.num (mkRat 267 10)),
   ("humid2", ObsValue.num (mkRat 58 1)),
   ("lightningcount", ObsValue.num (mkRat 0 1)),
   ("lightningdettime", ObsValue.absent),
   ("lightningdist", ObsValue.absent),
   ("datetime", ObsValue.num (mkRat 1599021263 1))]

/-- Sensor-ID payload fixture of the test suite
(SensorsStateTestCase.parse_sensor_id_data), six seven-byte records. -/
def sensor_id_payload : List Nat :=
  [0x00, 0xFF, 0xFF, 0xFF, 0xFE, 0xFF, 0x00,
   0x05, 0x00, 0x00, 0x00, 0xE4, 0x00, 0x04,
   0x0E, 0x00, 0x00, 0xCB, 0xD1, 0x0F, 0x04,
   0x10, 0x00, 0x00, 0xCD, 0x04, 0x1F, 0x00,
   0x1A, 0x00, 0x00, 0xD3, 0xD3, 0x04, 0x03,
   0x20, 0xFF, 0xFF, 0xFF, 0xFE, 0xFF, 0x00]

/-- Full sensor-ID response fixture of the test suite
(SensorsStateTestCase.get_sensor_state_packet): command byte 0x3C, two-byte
size 0x014D, forty-seven seven-byte records, trailing checksum byte. -/
def sensor_id_frame : List Nat :=
  [0xFF, 0xFF, 0x3C, 0x01, 0x4D,
   0x00, 0xFF, 0xFF, 0xFF, 0xFE, 0xFF, 0x00,
   0x01, 0xFF, 0xFF, 0xFF, 0xFE, 0xFF, 0x00,
   0x02, 0xFF, 0xFF, 0xFF, 0xFE, 0xFF, 0x00,
   0x03, 0xFF, 0xFF, 0xFF, 0xFE, 0x1F, 0x00,
   0x05, 0x00, 0x00, 0x00, 0xE4, 0x00, 0x04,
   0x06, 0x00, 0x00, 0x00, 0x5B, 0x00, 0x04,
   0x07, 0x00, 0x00, 0x00, 0xBE, 0x00, 0x04,
   0x08, 0xFF, 0xFF, 0xFF, 0xFE, 0x00, 0x00,
   0x09, 0xFF, 0xFF, 0xFF, 0xFE, 0x00, 0x00,
   0x0A, 0xFF, 0xFF, 0xFF, 0xFE, 0x00, 0x00,
   0x0B, 0xFF, 0xFF, 0xFF, 0xFE, 0x00, 0x00,
   0x0C, 0xFF, 0xFF, 0xFF, 0xFE, 0x00, 0x00,
   0x0D, 0xFF, 0xFF, 0xFF, 0xFE, 0x00, 0x00,
   0x0E, 0x00, 0x00, 0xCB, 0xD1, 0x0F, 0x04,
   0x0F, 0x00, 0x00, 0xCD, 0x19, 0x0F, 0x04,
   0x10, 0x00, 0x00, 0xCD, 0x04, 0x1F, 0x00,
   0x11, 0xFF, 0xFF, 0xFF, 0xFE, 0x1F, 0x00,
   0x12, 0xFF, 0xFF, 0xFF, 0xFE, 0x1F, 0x00,
   0x13, 0xFF, 0xFF, 0xFF, 0xFE, 0x1F, 0x00,
   0x14, 0xFF, 0xFF, 0xFF, 0xFE, 0x1F, 0x00,
   0x15, 0xFF, 0xFF, 0xFF, 0xFE, 0x1F, 0x00,
   0x16, 0x00, 0x00, 0xC4, 0x97, 0x06, 0x04,
   0x17, 0xFF, 0xFF, 0xFF, 0xFE, 0x0F, 0x00,
   0x18, 0xFF, 0xFF, 0xFF, 0xFE, 0x0F, 0x00,
   0x19, 0xFF, 0xFF, 0xFF, 0xFE, 0x0F, 0x00,
   0x1A, 0x00, 0x00, 0xD3, 0xD3, 0x04, 0x04,
   0x1B, 0xFF, 0xFF, 0xFF, 0xFE, 0x0F, 0x00,
   0x1C, 0xFF, 0xFF, 0xFF, 0xFE, 0x0F, 0x00,
   0x1D, 0xFF, 0xFF, 0xFF, 0xFE, 0x0F, 0x00,
   0x1E, 0xFF, 0xFF, 0xFF, 0xFE, 0x0F, 0x00,
   0x1F, 0xFF, 0xFF, 0xFF, 0xFF, 0xFF, 0x00,
   0x20, 0xFF, 0xFF, 0xFF, 0xFE, 0xFF, 0x00,
   0x21, 0xFF, 0xFF, 0xFF, 0xFE, 0xFF, 0x00,
   0x22, 0xFF, 0xFF, 0xFF, 0xFE, 0xFF, 0x00,
   0x23, 0xFF, 0xFF, 0xFF, 0xFE, 0xFF, 0x00,
   0x24, 0xFF, 0xFF, 0xFF, 0xFE, 0xFF, 0x00,
   0x25, 0xFF, 0xFF, 0xFF, 0xFE, 0xFF, 0x00,
   0x26, 0xFF, 0xFF, 0xFF, 0xFE, 0xFF, 0x00,
   0x27, 0xFF, 0xFF, 0xFF, 0xFE, 0x0F, 0x00,
   0x28, 0xFF, 0xFF, 0xFF, 0xFE, 0xFF, 0x00,
   0x29, 0xFF, 0xFF, 0xFF, 0xFE, 0xFF, 0x00,
   0x2A, 0xFF, 0xFF, 0xFF, 0xFE, 0xFF, 0x00,
   0x2B, 0xFF, 0xFF, 0xFF, 0xFE, 0xFF, 0x00,
   0x2C, 0xFF, 0xFF, 0xFF, 0xFE, 0xFF, 0x00,
   0x2D, 0xFF, 0xFF, 0xFF, 0xFE, 0xFF, 0x00,
   0x2E, 0xFF, 0xFF, 0xFF, 0xFE, 0xFF, 0x00,
   0x2F, 0xFF, 0xFF, 0xFF, 0xFE, 0xFF, 0x00,
   0xFF]

/-- Firmware-version response bytes exactly as the spec's section 8 quotes
them for validation: content reads GW1000_V1.6.8 and the trailing byte is
0x76. -/
def fware_resp_as_quoted : List Nat :=
  [0xFF, 0xFF, 0x50, 0x11, 0x0D, 0x47, 0x57, 0x31, 0x30, 0x30, 0x30, 0x5F,
   0x56, 0x31, 0x2E, 0x36, 0x2E, 0x38, 0x76]

/-- Firmware-version response with the trailing byte equal to the checksum
its content actually computes to, 0x7D, matching the test suite's own
parse_cmd_read_firmware_version fixture for the same content. -/
def fware_resp_good : List Nat :=
  [0xFF, 0xFF, 0x50, 0x11, 0x0D, 0x47, 0x57, 0x31, 0x30, 0x30, 0x30, 0x5F,
   0x56, 0x31, 0x2E, 0x36, 0x2E, 0x38, 0x7D]

/-- Firmware-version response with the final byte changed to 0x77 (the
bad-checksum variant of the fixture). -/
def fware_resp_bad_checksum : List Nat :=
  [0xFF, 0xFF, 0x50, 0x11, 0x0D, 0x47, 0x57, 0x31, 0x30, 0x30, 0x30, 0x5F,
   0x56, 0x31, 0x2E, 0x36, 0x2E, 0x38, 0x77]

/-- Firmware-version response with the command byte changed to 0x51 (the
bad-command variant of the fixture). -/
def fware_resp_bad_cmd : List Nat :=
  [0xFF, 0xFF, 0x51, 0x11, 0x0D, 0x47, 0x57, 0x31, 0x30, 0x30, 0x30, 0x5F,
   0x56, 0x31, 0x2E, 0x36, 0x2E, 0x38, 0x7D]

/-- The sixteen ASCII bytes of the literal string 00112233bbccddee, the
argument the test suite feeds calc_checksum. -/
def checksum_ascii_input : List Nat :=
  [0x30, 0x30, 0x31, 0x31, 0x32, 0x32, 0x33, 0x33,
   0x62, 0x62, 0x63, 0x63, 0x64, 0x64, 0x65, 0x65]

/-- The eight bytes obtained by instead decoding 00112233bbccddee as hex
pairs, the claim's reading of that argument. -/
def checksum_hexpair_input : List Nat :=
  [0x00, 0x11, 0x22, 0x33, 0xBB, 0xCC, 0xDD, 0xEE]

/-- Every element of parse_sensor_id_data is the parse of one seven-byte
record. -/
theorem parse_sensor_id_shape :
    ∀ (payload : List Nat), ∀ s ∈ parse_sensor_id_data payload,
      ∃ a i1 i2 i3 i4 b sg, s = mkSensorState a i1 i2 i3 i4 b sg
  | a :: i1 :: i2 :: i3 :: i4 :: b :: sg :: rest => by
      intro s hs
      rw [parse_sensor_id_data] at hs
      rcases List.mem_cons.mp hs with h | h
      · exact ⟨a, i1, i2, i3, i4, b, sg, h⟩
      · exact parse_sensor_id_shape rest s h
  | [] => by intro s hs; simp [parse_sensor_id_data] at hs
  | [_] => by intro s hs; simp [parse_sensor_id_data] at hs
  | [_, _] => by intro s hs; simp [parse_sensor_id_data] at hs
  | [_, _, _] => by intro s hs; simp [parse_sensor_id_data] at hs
  | [_, _, _, _] => by intro s hs; simp [parse_sensor_id_data] at hs
  | [_, _, _, _, _] => by intro s hs; simp [parse_sensor_id_data] at hs
  | [_, _, _, _, _, _] => by intro s hs; simp [parse_sensor_id_data] at hs

/-- The parsed record always carries the device id assembled from its four
id bytes. -/
theorem mkSensorState_devId (a i1 i2 i3 i4 b sg : Nat) :
    (mkSensorState a i1 i2 i3 i4 b sg).devId = devIdOf i1 i2 i3 i4 := by
  unfold mkSensorState
  split
  · rfl
  · split
    · rfl
    · rfl

/-- A record whose device id is a not-registered sentinel parses to battery
absent and signal 0. -/
theorem mkSensorState_sentinel (a i1 i2 i3 i4 b sg : Nat)
    (h : devIdOf i1 i2 i3 i4 ∈ not_registered) :
    (mkSensorState a i1 i2 i3 i4 b sg).battery = none ∧
    (mkSensorState a i1 i2 i3 i4 b sg).signal = 0 := by
  unfold mkSensorState
  rw [if_pos h]
  exact ⟨rfl, rfl⟩

/-- The model reproduces the repository's parse_sensor_id_data fixture
exactly, including battery 1 for the binary-battery sensor at address 0x0E
whose raw battery byte is 0x0F, and battery absent with signal 0 for the
registered address 0x10 whose signal byte is zero. -/
theorem parse_sensor_id_fixture_eval :
    parse_sensor_id_data sensor_id_payload =
      [⟨0x00, 0xFFFFFFFE, none, 0⟩,
       ⟨0x05, 0x000000E4, some (mkRat 0 1), 4⟩,
       ⟨0x0E, 0x0000CBD1, some (mkRat 1 1), 4⟩,
       ⟨0x10, 0x0000CD04, none, 0⟩,
       ⟨0x1A, 0x0000D3D3, some (mkRat 4 1), 3⟩,
       ⟨0x20, 0xFFFFFFFE, none, 0⟩] := by decide

/-- The model reproduces the repository's get_sensor_state_packet fixture
exactly: sixteen named observations, with the not-registered slots absent. -/
theorem sensor_state_packet_fixture_eval :
    get_sensor_state_packet sensor_id_frame =
      [("wh26_batt", some (mkRat 0 1)), ("wh26_sig", some (mkRat 4 1)),
       ("wh31_ch1_batt", some (mkRat 0 1)), ("wh31_ch1_sig", some (mkRat 4 1)),
       ("wh31_ch2_batt", some (mkRat 0 1)), ("wh31_ch2_sig", some (mkRat 4 1)),
       ("wh51_ch1_batt", some (mkRat 1 1)), ("wh51_ch1_sig", some (mkRat 4 1)),
       ("wh51_ch2_batt", some (mkRat 1 1)), ("wh51_ch2_sig", some (mkRat 4 1)),
       ("wh51_ch3_batt", none), ("wh51_ch3_sig", some (mkRat 0 1)),
       ("wh41_ch1_batt", some (mkRat 6 1)), ("wh41_ch1_sig", some (mkRat 4 1)),
       ("wh57_batt", some (mkRat 4 1)), ("wh57_sig", some (mkRat 4 1))] := by decide

/-- C1 (counterexample): decoding the live-data fixture frame with
CMD_GW1000_LIVEDATA does not produce a fifteen-key ObservationMap; the map
has sixteen keys (the claim itself lists sixteen entries, datetime
included). -/
theorem livedata_fixture_not_fifteen_keys :
    (parse ("CMD_GW1000_LIVEDATA") live_data_frame 1599021263).map List.length ≠
      some 15 := by decide

/-- C1 (amended): decoding the live-data fixture frame with
CMD_GW1000_LIVEDATA, with the fixture's clock stamp 1599021263, yields
exactly the sixteen-key ObservationMap of the fixture: intemp 32.0,
inhumid 38, absbarometer 1019.4, relbarometer 1019.4, pm251 9.0,
pm251_24h_avg 10.1, soilmoist1 39, soilmoist2 20, temp1 23.7, humid1 58,
temp2 26.7, humid2 58, lightningcount 0, lightningdettime None,
lightningdist None, datetime 1599021263.  The trailing conjuncts identify
the mkRat encodings used in the expected map with the decimal literals the
claim quotes. -/
theorem livedata_fixture_decode :
    parse ("CMD_GW1000_LIVEDATA") live_data_frame 1599021263 =
      some live_data_expected ∧
    live_data_expected.length = 16 ∧
    mkRat 320 10 = (32.0 : ℚ) ∧ mkRat 10194 10 = (1019.4 : ℚ) ∧
    mkRat 90 10 = (9.0 : ℚ) ∧ mkRat 101 10 = (10.1 : ℚ) ∧
    mkRat 237 10 = (23.7 : ℚ) ∧ mkRat 267 10 = (26.7 : ℚ) := by
  refine ⟨by decide, by decide, ?_, ?_, ?_, ?_, ?_, ?_⟩ <;>
    norm_num [Rat.mkRat_eq_div]

/-- C2: for every command name in the catalog and every payload that fits
the one-byte length field, building the command frame, then validating it
against that command's code (no exception) and extracting the payload with
the one-byte size width that build's frames carry, returns exactly the
payload passed to build. -/
theorem build_validate_extract_roundtrip
    (name : String) (code : Nat) (payload : List Nat)
    (hcmd : commands.lookup name = some code)
    (hlen : payload.length ≤ 252) :
    ∃ frame, build_cmd_packet name payload = some frame ∧
      check_response frame code = none ∧ get_payload frame 1 = payload := by
  have hb : build_cmd_packet name payload =
      some (0xFF :: 0xFF :: code :: (payload.length + 3) ::
        (payload ++ [calc_checksum (code :: (payload.length + 3) :: payload)])) := by
    simp only [build_cmd_packet, hcmd]
    rw [if_pos (by omega : payload.length + 3 ≤ 255)]
  refine ⟨_, hb, ?_, ?_⟩
  · have h2 : (0xFF :: 0xFF :: code :: (payload.length + 3) ::
        (payload ++ [calc_checksum (code :: (payload.length + 3) :: payload)])).get? 2 =
        some code := rfl
    have h3 : (0xFF :: 0xFF :: code :: (payload.length + 3) ::
        (payload ++ [calc_checksum (code :: (payload.length + 3) :: payload)])).getLast? =
        some (calc_checksum (code :: (payload.length + 3) :: payload)) := by
      have hassoc : 0xFF :: 0xFF :: code :: (payload.length + 3) ::
          (payload ++ [calc_checksum (code :: (payload.length + 3) :: payload)]) =
          (0xFF :: 0xFF :: code :: (payload.length + 3) :: payload) ++
            [calc_checksum (code :: (payload.length + 3) :: payload)] := by simp
      rw [hassoc, List.getLast?_concat]
    have h4 : (((0xFF :: 0xFF :: code :: (payload.length + 3) ::
        (payload ++ [calc_checksum (code :: (payload.length + 3) :: payload)])).drop 2)).dropLast =
        code :: (payload.length + 3) :: payload := by
      show (code :: (payload.length + 3) ::
        (payload ++ [calc_checksum (code :: (payload.length + 3) :: payload)])).dropLast = _
      have hassoc : code :: (payload.length + 3) ::
          (payload ++ [calc_checksum (code :: (payload.length + 3) :: payload)]) =
          (code :: (payload.length + 3) :: payload) ++
            [calc_checksum (code :: (payload.length + 3) :: payload)] := by simp
      rw [hassoc, List.dropLast_concat]
    simp only [check_response]
    rw [h2, h3, h4]
    simp
  · show ((0xFF :: 0xFF :: code :: (payload.length + 3) ::
      (payload ++ [calc_checksum (code :: (payload.length + 3) :: payload)])).drop 4).dropLast =
      payload
    show (payload ++ [calc_checksum (code :: (payload.length + 3) :: payload)]).dropLast = payload
    exact List.dropLast_concat

/-- C2 (witness): the round trip at CMD_BROADCAST with payload
01 02 03. -/
theorem build_validate_extract_roundtrip_case :
    ∃ frame, build_cmd_packet ("CMD_BROADCAST") [0x01, 0x02, 0x03] = some frame ∧
      check_response frame 0x12 = none ∧ get_payload frame 1 = [0x01, 0x02, 0x03] :=
  build_validate_extract_roundtrip ("CMD_BROADCAST") 0x12 [0x01, 0x02, 0x03]
    (by decide) (by decide)

/-- C3 (counterexample): on the literal response bytes the claim quotes
(content GW1000_V1.6.8, trailing byte 0x76), validation against command code
0x50 raises InvalidChecksum rather than accepting: the content's checksum is
0x7D, not 0x76. -/
theorem fware_quoted_bytes_fail_checksum :
    check_response fware_resp_as_quoted 0x50 = some ApiError.invalidChecksum ∧
    check_response fware_resp_as_quoted 0x50 ≠ none := by decide

/-- C3 (amended): with the good frame's trailing byte corrected to its
computed checksum 0x7D, validation against command code 0x50 accepts; the
same bytes with the final byte changed to 0x77 raise InvalidChecksum; and
the same bytes with the command byte changed to 0x51 raise
InvalidApiResponse. -/
theorem fware_response_validation :
    check_response fware_resp_good 0x50 = none ∧
    check_response fware_resp_bad_checksum 0x50 = some ApiError.invalidChecksum ∧
    check_response fware_resp_bad_cmd 0x50 = some ApiError.invalidApiResponse := by
  decide

/-- C4 (counterexample): calc_checksum applied to the eight bytes
00 11 22 33 BB CC DD EE returns 184, not 168. -/
theorem checksum_hexpair_counterexample :
    calc_checksum checksum_hexpair_input = 184 ∧
    calc_checksum checksum_hexpair_input ≠ 168 := by decide

/-- C4 (amended): calc_checksum computes the sum of its input bytes modulo
256, and applied to the sixteen ASCII bytes of the literal string
00112233bbccddee (the argument the test suite actually feeds it) it returns
168. -/
theorem calc_checksum_spec :
    (∀ data : List Nat, calc_checksum data = data.sum % 256) ∧
    calc_checksum checksum_ascii_input = 168 :=
  ⟨fun _ => rfl, by decide⟩

/-- C5: every slot of a parsed sensor-ID payload whose device id is one of
the not-registered sentinels fffffffe and ffffffff reports battery absent
and signal 0, for every value of the transmitted battery and signal
bytes. -/
theorem sensor_sentinel_battery (payload : List Nat) :
    ∀ s ∈ parse_sensor_id_data payload, s.devId ∈ not_registered →
      s.battery = none ∧ s.signal = 0 := by
  intro s hs hid
  obtain ⟨a, i1, i2, i3, i4, b, sg, rfl⟩ := parse_sensor_id_shape payload s hs
  rw [mkSensorState_devId] at hid
  exact mkSensorState_sentinel a i1 i2 i3 i4 b sg hid

/-- C5 (witness): a sentinel record with nonzero battery and signal bytes
parses to battery absent and signal 0. -/
theorem sensor_sentinel_battery_case :
    (mkSensorState 0x00 0xFF 0xFF 0xFF 0xFE 0x37 0x02).battery = none ∧
    (mkSensorState 0x00 0xFF 0xFF 0xFF 0xFE 0x37 0x02).signal = 0 :=
  sensor_sentinel_battery [0x00, 0xFF, 0xFF, 0xFF, 0xFE, 0x37, 0x02]
    (mkSensorState 0x00 0xFF 0xFF 0xFF 0xFE 0x37 0x02) (by decide) (by decide)

/-- C6: decode_temp on exactly two bytes is the signed big-endian 16-bit
integer divided by ten, so bytes 00 EA decode to 23.4 (and the signed case
FF 38 decodes to -20); on any input whose length is not exactly two bytes it
returns none rather than failing. -/
theorem decode_temp_spec :
    (∀ b0 b1 : Nat, decode_temp [b0, b1] =
        some (mkRat (toSigned16 (b0 * 256 + b1)) 10)) ∧
    decode_temp [0x00, 0xEA] = some (23.4 : ℚ) ∧
    decode_temp [0xFF, 0x38] = some (-20 : ℚ) ∧
    (∀ data : List Nat, data.length ≠ 2 → decode_temp data = none) := by
  refine ⟨fun b0 b1 => rfl, ?_, ?_, ?_⟩
  · have h : decode_temp [0x00, 0xEA] = some (mkRat 234 10) := by decide
    rw [h]
    norm_num [Rat.mkRat_eq_div]
  · have h : decode_temp [0xFF, 0x38] = some (mkRat (-200) 10) := by decide
    rw [h]
    norm_num [Rat.mkRat_eq_div]
  · intro data h
    cases data with
    | nil => rfl
    | cons a t =>
      cases t with
      | nil => rfl
      | cons b t2 =>
        cases t2 with
        | nil => exact absurd rfl h
        | cons c t3 => rfl

/-- C6 (witness): one byte and three bytes decode to none. -/
theorem decode_temp_spec_case :
    decode_temp [0x00] = none ∧ decode_temp [0x00, 0x00, 0x00] = none :=
  ⟨decode_temp_spec.2.2.2 [0x00] (by decide),
   decode_temp_spec.2.2.2 [0x00, 0x00, 0x00] (by decide)⟩

/-- C7 (counterexample): batt_binary 15 returns 1, not 0, although 15 is not
255 (the repository's sensor-ID fixture requires raw 0x0F to decode to 1 for
a binary-battery sensor). -/
theorem batt_binary_claim_counterexample :
    batt_binary 15 = 1 ∧ batt_binary 15 ≠ 0 := by decide

/-- C7 (amended): batt_volt raw equals raw times 0.02 exactly (an exact
multiple of one hundredth, so rounding to two decimal places leaves it
unchanged), with batt_volt 255 = 5.1 and batt_volt 100 = 2.00; batt_binary
returns the least-significant bit of raw (raw modulo 2), so
batt_binary 255 = 1 and batt_binary 4 = 0, but any odd raw value also
returns 1. -/
theorem batt_decode_amended :
    (∀ raw : Nat, batt_binary raw = raw % 2) ∧
    batt_binary 255 = 1 ∧ batt_binary 4 = 0 ∧
    batt_volt 255 = (5.1 : ℚ) ∧ batt_volt 100 = (2.00 : ℚ) ∧
    (∀ raw : Nat, batt_volt raw = mkRat (raw * 2) 100) := by
  refine ⟨fun raw => Nat.and_one_is_mod raw, by decide, by decide, ?_, ?_, fun _ => rfl⟩
  · have h : batt_volt 255 = mkRat 510 100 := rfl
    rw [h]
    norm_num [Rat.mkRat_eq_div]
  · have h : batt_volt 100 = mkRat 200 100 := rfl
    rw [h]
    norm_num [Rat.mkRat_eq_div]

/-- C8: decoding is deterministic: two invocations of the decode entry point
(and of the sensor-state packet builder) on the same inputs yield the same
ObservationMap; the model is a pure function of its arguments, the explicit
clock stamp included, so no hidden mutable state can influence the
output. -/
theorem decode_deterministic :
    ∀ (cmd : String) (raw : List Nat) (ts : Nat),
      parse cmd raw ts = parse cmd raw ts ∧
      get_sensor_state_packet raw = get_sensor_state_packet raw :=
  fun _ _ _ => ⟨rfl, rfl⟩

/-- C9: a sensor-ID record whose device id is registered (not a sentinel)
but whose transmitted signal byte is zero parses to battery absent and
signal 0, the raw battery byte notwithstanding; accordingly the sensor-state
packet built from the repository's fixture (address 0x10, id 0000cd04,
battery byte 0x1F, signal byte 0x00) contains wh51_ch3_batt absent and
wh51_ch3_sig 0. -/
theorem registered_signal_zero_battery :
    (∀ address i1 i2 i3 i4 battRaw : Nat,
        devIdOf i1 i2 i3 i4 ∉ not_registered →
        (mkSensorState address i1 i2 i3 i4 battRaw 0).battery = none ∧
        (mkSensorState address i1 i2 i3 i4 battRaw 0).signal = 0) ∧
    ("wh51_ch3_batt", (none : Option ℚ)) ∈ get_sensor_state_packet sensor_id_frame ∧
    ("wh51_ch3_sig", some (mkRat 0 1)) ∈ get_sensor_state_packet sensor_id_frame := by
  refine ⟨?_, by decide, by decide⟩
  intro address i1 i2 i3 i4 battRaw h
  unfold mkSensorState
  rw [if_neg h, if_pos rfl]
  exact ⟨rfl, rfl⟩

/-- C9 (witness): the fixture record itself, address 0x10 with id 0000cd04,
battery byte 0x1F and signal byte zero. -/
theorem registered_signal_zero_battery_case :
    (mkSensorState 0x10 0x00 0x00 0xCD 0x04 0x1F 0).battery = none ∧
    (mkSensorState 0x10 0x00 0x00 0xCD 0x04 0x1F 0).signal = 0 :=
  registered_signal_zero_battery.1 0x10 0x00 0x00 0xCD 0x04 0x1F (by decide)

/-- C10: for every command name in the catalog and every payload that fits
the one-byte length field, the length byte the frame builder emits (position
3 of the frame) equals the payload length plus three, counting the command
byte, the length byte itself and the checksum byte; in particular building
CMD_BROADCAST with an empty payload produces exactly FF FF 12 03 15. -/
theorem length_field_value :
    (∀ (name : String) (code : Nat) (payload : List Nat),
        commands.lookup name = some code → payload.length ≤ 252 →
        ∃ frame, build_cmd_packet name payload = some frame ∧
          frame.get? 3 = some (payload.length + 3)) ∧
    build_cmd_packet ("CMD_BROADCAST") [] = some [0xFF, 0xFF, 0x12, 0x03, 0x15] := by
  refine ⟨?_, by decide⟩
  intro name code payload hcmd hlen
  have hb : build_cmd_packet name payload =
      some (0xFF :: 0xFF :: code :: (payload.length + 3) ::
        (payload ++ [calc_checksum (code :: (payload.length + 3) :: payload)])) := by
    simp only [build_cmd_packet, hcmd]
    rw [if_pos (by omega : payload.length + 3 ≤ 255)]
  exact ⟨_, hb, rfl⟩

/-- C10 (witness): CMD_BROADCAST with a one-byte payload carries length
byte 4. -/
theorem length_field_value_case :
    ∃ frame, build_cmd_packet ("CMD_BROADCAST") [0x09] = some frame ∧
      frame.get? 3 = some 4 :=
  length_field_value.1 ("CMD_BROADCAST") 0x12 [0x09] (by decide) (by decide)

end GW1000
